import Mathlib

/-!
Verification of the Inverted-Pendulum Web_App control server.

The development shallowly embeds the Python sources `testweb.py` and
`Webserver.py`: the sensor-line decoder, the process supervisor
(`start_program` / `stop_program`), the motor-test starter of the
`Webserver.py` variant, the `/sensor_feed` poll handler and the
`/direction_ajax` joystick handler with its logging throttle.

Python strings are modelled as Lean `String`, Python `None`-able values as
`Option`, the process table dictionary as an association list, the OS
environment (liveness of a pid, success of `subprocess.Popen`) as explicit
parameters, and wall-clock instants as rationals.  Python `float` values in
the decoder appear only as decimal literals passing through `float(val)`
followed by fixed-point formatting; these are modelled exactly on the decimal
reading of the token (sign, digits, point, exponent) with round-half-to-even,
which agrees with CPython on all inputs considered here.
-/

/-! ## Python string primitives (str.strip, str.split, str.replace, ...) -/

/-- Model of Python `str.strip()` on a character list: drop leading and
trailing whitespace. -/
def stripChars (cs : List Char) : List Char :=
  ((cs.dropWhile Char.isWhitespace).reverse.dropWhile Char.isWhitespace).reverse

/-- Model of Python `str.strip()` on a `String`. -/
def pyStrip (s : String) : String :=
  String.mk (stripChars s.data)

/-- Model of Python `str.split(sep)` for a one-character separator: split on
every occurrence, keeping empty pieces (so `"".split(",") = [""]`). -/
def splitCh (sep : Char) : List Char → List (List Char)
  | [] => [[]]
  | c :: rest =>
    if c = sep then [] :: splitCh sep rest
    else
      match splitCh sep rest with
      | [] => [[c]]
      | g :: gs => (c :: g) :: gs

/-- Model of Python `line.split("|", 1)`: characters before the first `'|'`
and the remainder after it.  Only called when a `'|'` is present. -/
def splitFirstBar : List Char → List Char × List Char
  | [] => ([], [])
  | c :: rest =>
    if c = '|' then ([], rest)
    else
      let p := splitFirstBar rest
      (c :: p.1, p.2)

/-- Model of Python `str.split(sep)` for a multi-character separator
`sep = s0 :: st`.  `fuel` only bounds the recursion; callers pass the length
of the scanned list, which always suffices because every step consumes at
least one character. -/
def splitSeq (s0 : Char) (st : List Char) : Nat → List Char → List (List Char)
  | _, [] => [[]]
  | 0, cs => [cs]
  | fuel + 1, c :: rest =>
    if c = s0 ∧ st.isPrefixOf rest then
      [] :: splitSeq s0 st fuel (rest.drop st.length)
    else
      match splitSeq s0 st fuel rest with
      | [] => [[c]]
      | g :: gs => (c :: g) :: gs

/-- Model of Python `str.split(sep)` on `String`s (nonempty separator). -/
def pySplitSeq (s : String) (sep : String) : List String :=
  match sep.data with
  | [] => [s]
  | p :: ps => (splitSeq p ps s.data.length s.data).map String.mk

/-- Model of Python `str.replace(sep, "")`: delete every occurrence of the
(nonempty) pattern `s0 :: st`.  `fuel` as in `splitSeq`. -/
def eraseSeq (s0 : Char) (st : List Char) : Nat → List Char → List Char
  | _, [] => []
  | 0, cs => cs
  | fuel + 1, c :: rest =>
    if c = s0 ∧ st.isPrefixOf rest then
      eraseSeq s0 st fuel (rest.drop st.length)
    else
      c :: eraseSeq s0 st fuel rest

/-- Model of Python `s.replace(pat, "")` on `String`s. -/
def pyErase (s : String) (pat : String) : String :=
  match pat.data with
  | [] => s
  | p :: ps => String.mk (eraseSeq p ps s.data.length s.data)

/-- Model of Python `s.startswith(pat)`. -/
def startsW (s : String) (pat : String) : Bool :=
  pat.data.isPrefixOf s.data

/-! ## The numeric display formatter `fmt` (testweb.py lines 159-163) -/

/-- Numeric value of a list of decimal digit characters. -/
def digitsToNat (cs : List Char) : Nat :=
  cs.foldl (fun a c => a * 10 + (c.toNat - 48)) 0

/-- Model of CPython `float(val)` acceptance on the decimal reading of the
token: optional surrounding whitespace, optional sign, digits with an
optional decimal point (at least one digit overall), and an optional
decimal exponent.  The result `(neg, m, e)` denotes the value
`(-1)^neg * m * 10^e` read exactly.  Inputs outside this grammar (the
forms the repository ever feeds to `float`) yield `none`, modelling the
`ValueError` branch. -/
def parseDec (s : String) : Option (Bool × Nat × Int) :=
  let cs0 := stripChars s.data
  let signed : Bool × List Char :=
    match cs0 with
    | '-' :: rest => (true, rest)
    | '+' :: rest => (false, rest)
    | _ => (false, cs0)
  let neg := signed.1
  let ipSplit := signed.2.span Char.isDigit
  let ip := ipSplit.1
  let afterInt := ipSplit.2
  let fpSplit : List Char × List Char :=
    match afterInt with
    | '.' :: rest => rest.span Char.isDigit
    | _ => ([], afterInt)
  let fp := fpSplit.1
  let rest1 :=
    match afterInt with
    | '.' :: _ => fpSplit.2
    | _ => afterInt
  if ip.isEmpty ∧ fp.isEmpty then none
  else
    let mant := digitsToNat (ip ++ fp)
    let baseExp : Int := -(fp.length : Int)
    match rest1 with
    | [] => some (neg, mant, baseExp)
    | 'e' :: erest =>
      match parseExpTail erest with
      | some ex => some (neg, mant, ex + baseExp)
      | none => none
    | 'E' :: erest =>
      match parseExpTail erest with
      | some ex => some (neg, mant, ex + baseExp)
      | none => none
    | _ => none
where
  /-- Signed all-digit exponent tail. -/
  parseExpTail (cs : List Char) : Option Int :=
    let signed : Bool × List Char :=
      match cs with
      | '-' :: rest => (true, rest)
      | '+' :: rest => (false, rest)
      | _ => (false, cs)
    let ds := signed.2.span Char.isDigit
    if ds.1.isEmpty ∨ ¬ ds.2.isEmpty then none
    else if signed.1 then some (-(digitsToNat ds.1 : Int))
    else some ((digitsToNat ds.1 : Int))

/-- Round `m * 10^k` (with `m : Nat`) to the nearest integer, ties to even —
the rounding CPython applies when formatting these decimal-literal values. -/
def scaleRound (m : Nat) (k : Int) : Nat :=
  if 0 ≤ k then m * 10 ^ k.toNat
  else
    let d := 10 ^ (-k).toNat
    let q := m / d
    let r := m % d
    if 2 * r < d then q
    else if d < 2 * r then q + 1
    else if q % 2 = 0 then q else q + 1

/-- Model of `fmt` in `parse_sensor_line` (testweb.py lines 159-163):
`f"{float(val):.1f}"` when the token parses as a number, the token itself
unchanged otherwise. -/
def fmt (val : String) : String :=
  match parseDec val with
  | none => val
  | some (neg, m, e) =>
    let n := scaleRound m (e + 1)
    (if neg then "-" else "") ++ toString (n / 10) ++ "." ++ toString (n % 10)

/-- Number of decimal digits of `m` (as rendered). -/
def numDigits (m : Nat) : Nat :=
  (toString m).length

/-- Render `n * 10^keep` (with `n : Nat`) in plain fixed-point decimal
notation. -/
def renderFixed (n : Nat) (keep : Int) : String :=
  if 0 ≤ keep then toString (n * 10 ^ keep.toNat)
  else
    let shift := (-keep).toNat
    let fs := toString (n % 10 ^ shift)
    toString (n / 10 ^ shift) ++ "." ++
      String.mk (List.replicate (shift - fs.length) '0') ++ fs

/-- Modelled from the spec: the "significant-digit rounding" display policy
at two significant figures.  No implementation exists under `src/` — the
sources hard-code the fixed one-decimal policy `fmt`; this definition follows
the spec's words ("Numeric values are formatted for display using a
configurable numeric policy (fixed decimal places, or significant-digit
rounding)").  A non-numeric token passes through unchanged, as for `fmt`. -/
def fmt_sig2 (val : String) : String :=
  match parseDec val with
  | none => val
  | some (neg, m, e) =>
    if m = 0 then (if neg then "-" else "") ++ "0.0"
    else
      let p : Int := (numDigits m : Int) + e - 1
      let keep : Int := p - 1
      let n := scaleRound m (e - keep)
      (if neg then "-" else "") ++ renderFixed n keep

/-! ## The sensor snapshot shape (testweb.py lines 118-157) -/

/-- The `"IMU1"` section of the snapshot. -/
structure IMU1Section where
  time : String
  fbTilt : String
  ssTilt : String
  yaw : String
  pitchRate : String
  rollRate : String
  rotVel : String
deriving DecidableEq, Repr

/-- The `"IMU2"` section of the snapshot. -/
structure IMU2Section where
  fbTilt : String
  ssTilt : String
  yaw : String
  pitchRate : String
  rollRate : String
  rotVel : String
deriving DecidableEq, Repr

/-- The `"IMU1Linear"` section of the snapshot. -/
structure IMU1LinearSection where
  linearVelocity : String
  xVelocity : String
  yVelocity : String
deriving DecidableEq, Repr

/-- The `"Extra"` section of the snapshot. -/
structure ExtraSection where
  robotYawRate : String
  pendAngVel : String
  pendAngle : String
  pendAngleDeg : String
  ultraRight : String
  ultraLeft : String
deriving DecidableEq, Repr

/-- The `"EncoderL"` / `"EncoderR"` sections of the snapshot. -/
structure EncoderSection where
  speed : String
  direction : String
deriving DecidableEq, Repr

/-- The fixed-shape result dictionary of `parse_sensor_line`. -/
structure SensorSnapshot where
  imu1 : IMU1Section
  imu2 : IMU2Section
  imu1Linear : IMU1LinearSection
  extra : ExtraSection
  encoderL : EncoderSection
  encoderR : EncoderSection
deriving DecidableEq, Repr

/-- The initial `result` value: every leaf field is the empty string. -/
def emptySnapshot : SensorSnapshot :=
  ⟨⟨"", "", "", "", "", "", ""⟩,
   ⟨"", "", "", "", "", ""⟩,
   ⟨"", "", ""⟩,
   ⟨"", "", "", "", "", ""⟩,
   ⟨"", ""⟩,
   ⟨"", ""⟩⟩

/-- The ordered list of the 26 leaf fields of a snapshot. -/
def leaves (s : SensorSnapshot) : List String :=
  [s.imu1.time, s.imu1.fbTilt, s.imu1.ssTilt, s.imu1.yaw,
   s.imu1.pitchRate, s.imu1.rollRate, s.imu1.rotVel,
   s.imu2.fbTilt, s.imu2.ssTilt, s.imu2.yaw,
   s.imu2.pitchRate, s.imu2.rollRate, s.imu2.rotVel,
   s.imu1Linear.linearVelocity, s.imu1Linear.xVelocity, s.imu1Linear.yVelocity,
   s.extra.robotYawRate, s.extra.pendAngVel, s.extra.pendAngle,
   s.extra.pendAngleDeg, s.extra.ultraRight, s.extra.ultraLeft,
   s.encoderL.speed, s.encoderL.direction,
   s.encoderR.speed, s.encoderR.direction]

/-! ## The line decoder `parse_sensor_line` (testweb.py lines 109-291) -/

/-- The `imu1_map` of testweb.py (lines 180-187): expected label to field
setter. -/
def imu1Set : String → Option (IMU1Section → String → IMU1Section)
  | "Forward/backwards Tilt in rad/s" => some (fun r v => { r with fbTilt := v })
  | "Side-to-Side tilt in rad/s" => some (fun r v => { r with ssTilt := v })
  | "Yaw in rad/s" => some (fun r v => { r with yaw := v })
  | "Pitch Rate in rad/s" => some (fun r v => { r with pitchRate := v })
  | "Roll Rate in rad/s" => some (fun r v => { r with rollRate := v })
  | "Rotational Velocity in rad/s" => some (fun r v => { r with rotVel := v })
  | _ => none

/-- The `imu2_map` of testweb.py (lines 196-203); note its first expected
label is `"Tilt in rad/s"`, not the IMU1 form. -/
def imu2Set : String → Option (IMU2Section → String → IMU2Section)
  | "Tilt in rad/s" => some (fun r v => { r with fbTilt := v })
  | "Side-to-Side tilt in rad/s" => some (fun r v => { r with ssTilt := v })
  | "Yaw in rad/s" => some (fun r v => { r with yaw := v })
  | "Pitch Rate in rad/s" => some (fun r v => { r with pitchRate := v })
  | "Roll Rate in rad/s" => some (fun r v => { r with rollRate := v })
  | "Rotational Velocity in rad/s" => some (fun r v => { r with rotVel := v })
  | _ => none

/-- The label/value walking loop shared by the IMU1 and IMU2 groups
(testweb.py lines 188-192 and 204-208): while a label/value pair remains and
the token at the cursor is a key of the map, write the formatted value and
advance the cursor by two; on the first mismatch stop, leaving cursor and
remaining fields untouched.  `fuel` only bounds the recursion and is
initialised with the token count, which always suffices because the cursor
strictly advances while tokens remain. -/
def pairWalk (set : String → Option (α → String → α)) (tokens : List String) :
    Nat → Nat → α → α × Nat
  | 0, idx, r => (r, idx)
  | fuel + 1, idx, r =>
    if idx + 1 < tokens.length then
      match set (tokens.getD idx "") with
      | some f => pairWalk set tokens fuel (idx + 2) (f r (fmt (tokens.getD (idx + 1) "")))
      | none => (r, idx)
    else (r, idx)

/-- One marker-then-value group (the shape repeated at testweb.py lines
210-250): if the token at the cursor equals the marker, step past it and, if
a token remains, return its formatted value and the advanced cursor;
otherwise return the current value and cursor unchanged. -/
def singleVal (tokens : List String) (idx : Nat) (marker : String) (cur : String) :
    String × Nat :=
  if idx < tokens.length ∧ tokens.getD idx "" = marker then
    let j := idx + 1
    if j < tokens.length then (fmt (tokens.getD j ""), j + 1) else (cur, j)
  else (cur, idx)

/-- An encoder group (testweb.py lines 252-272): marker, formatted speed
value, then a nested `"Direction"` marker with a raw (unformatted) value. -/
def encoderWalk (tokens : List String) (idx : Nat) (marker : String)
    (enc : EncoderSection) : EncoderSection × Nat :=
  if idx < tokens.length ∧ tokens.getD idx "" = marker then
    let i1 := idx + 1
    let step1 : EncoderSection × Nat :=
      if i1 < tokens.length then ({ enc with speed := fmt (tokens.getD i1 "") }, i1 + 1)
      else (enc, i1)
    if step1.2 < tokens.length ∧ tokens.getD step1.2 "" = "Direction" then
      let i3 := step1.2 + 1
      if i3 < tokens.length then ({ step1.1 with direction := tokens.getD i3 "" }, i3 + 1)
      else (step1.1, i3)
    else step1
  else (enc, idx)

/-- One pass of the ultrasonic loop body (testweb.py lines 276-287). -/
def ultraStep (ex : ExtraSection) (piece : String) : ExtraSection :=
  let p := pyStrip piece
  if startsW p "Right:" then
    let val := pyStrip (pyErase (pyErase p "Right:") "cm")
    { ex with ultraRight := if val ≠ "---" then fmt val ++ " cm" else val ++ " cm" }
  else if startsW p "Left:" then
    let val := pyStrip (pyErase (pyErase p "Left:") "cm")
    { ex with ultraLeft := if val ≠ "---" then fmt val ++ " cm" else val ++ " cm" }
  else ex

/-- Model of `parse_sensor_line` (testweb.py lines 109-291): split off the
optional pipe-delimited ultrasonic part, tokenize the main part on commas
with stripping, then walk the token sequence with a cursor through the fixed
sequence of groups. -/
def parse_sensor_line (line : String) : SensorSnapshot :=
  let parts : String × String :=
    if line.data.contains '|' then
      let p := splitFirstBar line.data
      (String.mk (stripChars p.1), String.mk (stripChars p.2))
    else (line, "")
  let tokens := ((splitCh ',' parts.1.data).map (fun cs => String.mk (stripChars cs)))
  let len := tokens.length
  let t1 : SensorSnapshot × Nat :=
    if 0 < len ∧ (tokens.getD 0 "").data.contains ':' then
      ({ emptySnapshot with imu1 := { emptySnapshot.imu1 with time := tokens.getD 0 "" } }, 1)
    else (emptySnapshot, 0)
  let t2 : SensorSnapshot × Nat :=
    if t1.2 < len ∧ tokens.getD t1.2 "" = "IMU1" then
      let w := pairWalk imu1Set tokens len (t1.2 + 1) t1.1.imu1
      ({ t1.1 with imu1 := w.1 }, w.2)
    else t1
  let t3 : SensorSnapshot × Nat :=
    if t2.2 < len ∧ tokens.getD t2.2 "" = "IMU2" then
      let w := pairWalk imu2Set tokens len (t2.2 + 1) t2.1.imu2
      ({ t2.1 with imu2 := w.1 }, w.2)
    else t2
  let t4 : SensorSnapshot × Nat :=
    let r := singleVal tokens t3.2 "IMU1 Linear Velocity" t3.1.imu1Linear.linearVelocity
    ({ t3.1 with imu1Linear := { t3.1.imu1Linear with linearVelocity := r.1 } }, r.2)
  let t5 : SensorSnapshot × Nat :=
    let r := singleVal tokens t4.2 "IMU1's X-velocity" t4.1.imu1Linear.xVelocity
    ({ t4.1 with imu1Linear := { t4.1.imu1Linear with xVelocity := r.1 } }, r.2)
  let t6 : SensorSnapshot × Nat :=
    let r := singleVal tokens t5.2 "IMU1's Y-velocity" t5.1.imu1Linear.yVelocity
    ({ t5.1 with imu1Linear := { t5.1.imu1Linear with yVelocity := r.1 } }, r.2)
  let t7 : SensorSnapshot × Nat :=
    let r := singleVal tokens t6.2 "Robot Yaw Rate" t6.1.extra.robotYawRate
    ({ t6.1 with extra := { t6.1.extra with robotYawRate := r.1 } }, r.2)
  let t8 : SensorSnapshot × Nat :=
    let r := singleVal tokens t7.2 "Pendulum Angular Velocity" t7.1.extra.pendAngVel
    ({ t7.1 with extra := { t7.1.extra with pendAngVel := r.1 } }, r.2)
  let t9 : SensorSnapshot × Nat :=
    let r := singleVal tokens t8.2 "Pendulum Angle" t8.1.extra.pendAngle
    ({ t8.1 with extra := { t8.1.extra with pendAngle := r.1 } }, r.2)
  let t10 : SensorSnapshot × Nat :=
    let r := singleVal tokens t9.2 "Pendulum Angle (deg)" t9.1.extra.pendAngleDeg
    ({ t9.1 with extra := { t9.1.extra with pendAngleDeg := r.1 } }, r.2)
  let t11 : SensorSnapshot × Nat :=
    let r := encoderWalk tokens t10.2 "EncoderL" t10.1.encoderL
    ({ t10.1 with encoderL := r.1 }, r.2)
  let t12 : SensorSnapshot × Nat :=
    let r := encoderWalk tokens t11.2 "EncoderR" t11.1.encoderR
    ({ t11.1 with encoderR := r.1 }, r.2)
  if parts.2 ≠ "" then
    { t12.1 with extra := (pySplitSeq parts.2 "Ultrasonic").foldl ultraStep t12.1.extra }
  else t12.1

/-! ## The process supervisor (testweb.py lines 17-103) -/

/-- The `PROGRAMS` table (testweb.py lines 17-22): logical name to script. -/
def PROGRAMS : List (String × String) :=
  [("imu", "imuencoderv4.py"),
   ("motortest", "motortest.py"),
   ("ml", "ml.py"),
   ("autonav", "autonav.py")]

/-- The `PROGRAM_PROCS` dictionary: logical name to recorded handle (a pid)
or `none`, as an association list. -/
abbrev ProcMap := List (String × Option Nat)

/-- The initial `PROGRAM_PROCS` (testweb.py line 24): every known name maps
to `None`. -/
def PROGRAM_PROCS_init : ProcMap :=
  PROGRAMS.map (fun p => (p.1, none))

/-- Model of `PROGRAM_PROCS.get(name)`: `none` both for a missing key and a
stored `None`. -/
def procGet (procs : ProcMap) (name : String) : Option Nat :=
  (procs.lookup name).join

/-- Model of `PROGRAM_PROCS[name] = v`: overwrite the binding, adding it if
absent. -/
def procSet (procs : ProcMap) (name : String) (v : Option Nat) : ProcMap :=
  match procs with
  | [] => [(name, v)]
  | (k, w) :: rest =>
    if k = name then (k, v) :: rest else (k, w) :: procSet rest name v

/-- Model of `is_program_running` (testweb.py lines 44-46): a handle is
recorded and `proc.poll() is None`; the OS liveness check is the `alive`
parameter. -/
def is_program_running (alive : Nat → Bool) (procs : ProcMap) (name : String) : Bool :=
  match procGet procs name with
  | none => false
  | some pid => alive pid

/-- Result of one `start_program` call: the process table afterwards, the
returned boolean, whether a `subprocess.Popen` was issued and succeeded
(`spawned`), and whether `numbers.txt` was truncated (`clearedLog`, tracked
for the motor-test policy; `start_program` never truncates). -/
structure StartResult where
  procs : ProcMap
  ret : Bool
  spawned : Bool
  clearedLog : Bool
deriving DecidableEq, Repr

/-- Model of `start_program` (testweb.py lines 49-66).  `spawn` is the
outcome of `subprocess.Popen(["python3", script], preexec_fn=os.setsid)`:
`some pid` on success, `none` when it raises (the `except` branch logs and
stores `None`). -/
def start_program (alive : Nat → Bool) (spawn : Option Nat) (procs : ProcMap)
    (name : String) : StartResult :=
  if (PROGRAMS.lookup name).isNone then
    ⟨procs, false, false, false⟩
  else if is_program_running alive procs name then
    ⟨procs, true, false, false⟩
  else
    match spawn with
    | some pid => ⟨procSet procs name (some pid), true, true, false⟩
    | none => ⟨procSet procs name none, false, false, false⟩

/-- Model of `stop_program` (testweb.py lines 69-79).  `killOk` is whether
`os.killpg(..., SIGTERM)` succeeds; its failure is caught and only logged,
and the `finally` block clears the handle either way, so the resulting table
does not depend on it. -/
def stop_program (alive : Nat → Bool) (killOk : Bool) (procs : ProcMap)
    (name : String) : ProcMap :=
  if is_program_running alive procs name then procSet procs name none
  else procs

/-! ## The Webserver.py per-process variant (lines 26-81) -/

/-- Model of `is_imu_running` / `is_motor_test_running` (Webserver.py lines
26-28 and 50-52) over a single stored handle. -/
def ws_is_running (alive : Nat → Bool) (proc : Option Nat) : Bool :=
  match proc with
  | none => false
  | some pid => alive pid

/-- Result of a Webserver.py start call: stored handle afterwards, returned
boolean, and whether `numbers.txt` was truncated. -/
structure WsStartResult where
  proc : Option Nat
  ret : Bool
  clearedLog : Bool
deriving DecidableEq, Repr

/-- Model of `start_motor_test` (Webserver.py lines 55-69): when not
running, clear `numbers.txt`, spawn `motortest.py` (yielding `newPid`), and
return the post-spawn liveness check. -/
def ws_start_motor_test (alive : Nat → Bool) (newPid : Nat) (proc : Option Nat) :
    WsStartResult :=
  if ws_is_running alive proc then ⟨proc, ws_is_running alive proc, false⟩
  else ⟨some newPid, ws_is_running alive (some newPid), true⟩

/-- Model of `start_imu` (Webserver.py lines 31-36): as above but with no
log-clearing step. -/
def ws_start_imu (alive : Nat → Bool) (newPid : Nat) (proc : Option Nat) :
    WsStartResult :=
  if ws_is_running alive proc then ⟨proc, ws_is_running alive proc, false⟩
  else ⟨some newPid, ws_is_running alive (some newPid), false⟩

/-! ## The poll endpoint `sensor_feed` (testweb.py lines 297-304) -/

/-- Model of the `/sensor_feed` handler: `raw` is the result of reading the
first line of `sensor_data.txt` (`none` when the file is missing or any read
step raises, the caught-exception branch); a read line is stripped and
decoded, a failure decodes the empty sentinel `""`. -/
def sensor_feed (raw : Option String) : SensorSnapshot :=
  match raw with
  | some s => parse_sensor_line (pyStrip s)
  | none => parse_sensor_line ""

/-! ## The joystick handler `direction_ajax` (testweb.py lines 324-339) -/

/-- The throttle interval, `joystick_throttle_interval = 0.25` seconds
(testweb.py line 28). -/
def joystick_throttle_interval : ℚ := 1 / 4

/-- The initial `last_joystick_send` (testweb.py line 27). -/
def last_joystick_send_init : ℚ := 0

/-- Round the fraction `num / den` (both natural) to the nearest natural
number, ties to even — the rounding CPython's `.2f` format applies. -/
def roundHalfEvenNat (num den : Nat) : Nat :=
  let q := num / den
  let r := num % den
  if 2 * r < den then q
  else if den < 2 * r then q + 1
  else if q % 2 = 0 then q else q + 1

/-- Two-digit zero-padded rendering of a value below 100. -/
def pad2 (k : Nat) : String :=
  if k < 10 then "0" ++ toString k else toString k

/-- Model of the Python format `f"{x:.2f}"` on the rational model of the
joystick coordinate: the magnitude `|x| = x.num.toNat / x.den` scaled by 100
and rounded half-to-even, rendered with two fractional digits. -/
def fmtF2 (x : ℚ) : String :=
  if x < 0 then "-" ++ fmtF2mag (-x) else fmtF2mag x
where
  /-- Nonnegative case, computed on the numerator/denominator pair. -/
  fmtF2mag (x : ℚ) : String :=
    let n := roundHalfEvenNat (x.num.toNat * 100) x.den
    toString (n / 100) ++ "." ++ pad2 (n % 100)

/-- The acknowledgment message of `direction_ajax` (testweb.py line 333),
computed from the request coordinates with `data.get` defaults of `0.0`. -/
def joyMessage (xo yo : Option ℚ) : String :=
  "Joystick x=" ++ fmtF2 (xo.getD 0) ++ ", y=" ++ fmtF2 (yo.getD 0)

/-- Result of one `direction_ajax` call: the returned message, the
`last_joystick_send` value afterwards, and whether `log_to_file` ran. -/
structure AjaxResult where
  message : String
  lastSent : ℚ
  logged : Bool
deriving DecidableEq, Repr

/-- Model of the `/direction_ajax` handler (testweb.py lines 324-339):
`lastSent` is the current `last_joystick_send`, `now` the `time.time()`
value, `xo`/`yo` the optional `"x"`/`"y"` members of the JSON body.  The
message is computed unconditionally; the throttle gate only decides whether
the command is logged and the timestamp updated. -/
def direction_ajax (lastSent now : ℚ) (xo yo : Option ℚ) : AjaxResult :=
  if now - lastSent ≥ joystick_throttle_interval then
    ⟨joyMessage xo yo, now, true⟩
  else
    ⟨joyMessage xo yo, lastSent, false⟩

/-! ## Sample records used in the partial-fill analysis -/

/-- A well-formed record whose `"IMU2"` group is absent in its entirety and
whose IMU1 group stops after two matched pairs: the token at the point of
mismatch is the `"IMU1 Linear Velocity"` marker of a later group. -/
def sampleLineNoIMU2 : String :=
  "18:22:42, IMU1, Forward/backwards Tilt in rad/s, 0.1, Side-to-Side tilt in rad/s, 0.2, IMU1 Linear Velocity, 0.5, Robot Yaw Rate, 0.7, EncoderL, 1.0, Direction, stopped"

/-- The snapshot the decoder produces for `sampleLineNoIMU2`: fields matched
before the IMU1 mismatch keep their decoded values, the rest of IMU1 and all
of IMU2 stay empty, and every later group decodes. -/
def sampleNoIMU2Expected : SensorSnapshot :=
  ⟨⟨"18:22:42", "0.1", "0.2", "", "", "", ""⟩,
   ⟨"", "", "", "", "", ""⟩,
   ⟨"0.5", "", ""⟩,
   ⟨"0.7", "", "", "", "", ""⟩,
   ⟨"1.0", "stopped"⟩,
   ⟨"", ""⟩⟩

/-- A record with a junk token inside the IMU1 group followed by a
well-formed `"IMU2"` group.  The cursor stalls on `"JUNK"`, so the IMU2
group never decodes even though it is present and well formed. -/
def sampleJunkLine : String :=
  "IMU1, JUNK, 0.5, IMU2, Tilt in rad/s, 0.3"

/-! ## Helper lemmas -/

/-- Writing a binding and reading it back yields the written value. -/
theorem procGet_procSet (procs : ProcMap) (name : String) (v : Option Nat) :
    procGet (procSet procs name v) name = v := by
  induction procs with
  | nil => simp [procSet, procGet, List.lookup]
  | cons p rest ih =>
    obtain ⟨k, w⟩ := p
    by_cases h : k = name
    · subst h
      simp [procSet, procGet, List.lookup]
    · have h2 : (name == k) = false := by
        simp [beq_eq_false_iff_ne]
        exact fun hc => h hc.symm
      simp only [procSet, if_neg h, procGet, List.lookup, h2]
      exact ih

/-! ## Claim theorems -/

/-- C3: `parse_sensor_line` is total by construction (a Lean function into
the fixed-shape `SensorSnapshot`, so every section and leaf field is present
for every input line and an unmatched field stays at the empty value), and
decoding the empty record yields the snapshot whose 26 leaf fields all equal
the empty value. -/
theorem decode_total_empty_law :
    parse_sensor_line "" = emptySnapshot ∧
    ((leaves (parse_sensor_line "")).all fun v => v == "") = true ∧
    ∀ line : String, (leaves (parse_sensor_line line)).length = 26 :=
  ⟨by decide, by decide, fun _ => rfl⟩

/-- C9: the poll handler never raises (it is a total function of the state
of the backing store, with `none` covering a missing or unreadable source);
with no data available it decodes the empty sentinel into the all-empty
snapshot of the full fixed shape. -/
theorem sensor_feed_unavailable_safe :
    sensor_feed none = emptySnapshot ∧
    ((leaves (sensor_feed none)).all fun v => v == "") = true ∧
    ∀ raw : Option String, (leaves (sensor_feed raw)).length = 26 :=
  ⟨by decide, by decide, fun _ => rfl⟩

/-- C5: the token `"1.23456"` formats to `"1.2"` under the code's fixed
one-decimal policy `fmt`; under the spec-modelled two-significant-figure
policy the same token formats to `"1.2"` and `"0.01234"` to `"0.012"`; and
every token that fails to parse as a number passes through `fmt`
unchanged. -/
theorem fmt_policy_values :
    fmt "1.23456" = "1.2" ∧
    fmt_sig2 "1.23456" = "1.2" ∧
    fmt_sig2 "0.01234" = "0.012" ∧
    ∀ s : String, parseDec s = none → fmt s = s :=
  ⟨by decide, by decide, by decide, fun s h => by simp [fmt, h]⟩

/-- Witness for C5: `"stopped"` fails to parse as a number and passes
through unchanged. -/
theorem fmt_policy_values_witness :
    parseDec "stopped" = none ∧ fmt "stopped" = "stopped" :=
  ⟨by decide, fmt_policy_values.2.2.2 "stopped" (by decide)⟩

/-- C4 (amended): a group's label/value loop neither advances the cursor
nor writes a value when the token at the cursor is not an expected label,
and a single-value group is skipped entirely when its marker is absent —
so fields matched before a mismatch keep their values and the rest of the
group stays empty; later groups still decode when the token at the point
of mismatch is itself a later group's marker (the `"IMU2"`-group-absent
record `sampleLineNoIMU2`), though not for an arbitrary mismatch. -/
theorem parser_partial_fill_amended :
    (∀ (α : Type) (set : String → Option (α → String → α))
        (tokens : List String) (fuel idx : Nat) (r : α),
        set (tokens.getD idx "") = none →
        pairWalk set tokens fuel idx r = (r, idx)) ∧
    (∀ (tokens : List String) (idx : Nat) (marker cur : String),
        tokens.getD idx "" ≠ marker →
        singleVal tokens idx marker cur = (cur, idx)) ∧
    parse_sensor_line sampleLineNoIMU2 = sampleNoIMU2Expected := by
  refine ⟨?_, ?_, by decide⟩
  · intro α set tokens fuel idx r h
    cases fuel with
    | zero => rfl
    | succ n =>
      unfold pairWalk
      rw [h]
      split <;> rfl
  · intro tokens idx marker cur h
    unfold singleVal
    rw [if_neg]
    exact fun hc => h hc.2

/-- Witness for C4: the junk label `"JUNK"` stops the IMU1 walk with cursor
and section untouched, and an absent `"IMU2"` marker leaves a single-value
group unchanged. -/
theorem parser_partial_fill_amended_witness :
    pairWalk imu1Set ["JUNK", "0.5"] 2 0 emptySnapshot.imu1 = (emptySnapshot.imu1, 0) ∧
    singleVal ["JUNK"] 0 "IMU2" "" = ("", 0) :=
  ⟨parser_partial_fill_amended.1 IMU1Section imu1Set ["JUNK", "0.5"] 2 0
      emptySnapshot.imu1 rfl,
   parser_partial_fill_amended.2.1 ["JUNK"] 0 "IMU2" "" (by decide)⟩

/-- Counterexample for C4 as stated: in `sampleJunkLine` the mismatch token
`"JUNK"` sits inside the IMU1 group and the later `"IMU2"` group is present
and well formed, yet it does not decode — its first field stays empty
instead of receiving `"0.3"`. -/
theorem parser_counterexample_later_group :
    (parse_sensor_line sampleJunkLine).imu2.fbTilt = "" ∧
    (parse_sensor_line sampleJunkLine).imu2.fbTilt ≠ "0.3" :=
  ⟨by decide, by decide⟩

/-- C1: `start_program` satisfies the supervisor contract — an unknown name
returns false with the table untouched; an already-running process returns
true with no spawn and no table change; a known, stopped process spawns on
Popen success, records the handle and returns true; on Popen failure it
returns false with the handle left absent; and two starts with no
intervening stop spawn exactly once (so exactly one live OS process) and
return true both times. -/
theorem start_program_contract (alive : Nat → Bool) (spawn2 : Option Nat)
    (procs : ProcMap) (name : String) (pid : Nat) :
    (PROGRAMS.lookup name = none →
      ∀ spawn, start_program alive spawn procs name = ⟨procs, false, false, false⟩) ∧
    ((PROGRAMS.lookup name).isSome = true →
      is_program_running alive procs name = true →
      ∀ spawn, start_program alive spawn procs name = ⟨procs, true, false, false⟩) ∧
    ((PROGRAMS.lookup name).isSome = true →
      is_program_running alive procs name = false →
      start_program alive (some pid) procs name =
        ⟨procSet procs name (some pid), true, true, false⟩) ∧
    ((PROGRAMS.lookup name).isSome = true →
      is_program_running alive procs name = false →
      start_program alive none procs name = ⟨procSet procs name none, false, false, false⟩ ∧
      procGet (start_program alive none procs name).procs name = none) ∧
    ((PROGRAMS.lookup name).isSome = true →
      is_program_running alive procs name = false →
      alive pid = true →
      (start_program alive (some pid) procs name).ret = true ∧
      (start_program alive (some pid) procs name).spawned = true ∧
      (start_program alive spawn2 (start_program alive (some pid) procs name).procs name).ret
        = true ∧
      (start_program alive spawn2 (start_program alive (some pid) procs name).procs name).spawned
        = false ∧
      (start_program alive spawn2 (start_program alive (some pid) procs name).procs name).procs
        = (start_program alive (some pid) procs name).procs) := by
  refine ⟨?_, ?_, ?_, ?_, ?_⟩
  · intro h spawn
    simp [start_program, h]
  · intro hk hrun spawn
    have hn : (PROGRAMS.lookup name).isNone = false := by
      cases hc : PROGRAMS.lookup name <;> simp_all
    simp [start_program, hn, hrun]
  · intro hk hrun
    have hn : (PROGRAMS.lookup name).isNone = false := by
      cases hc : PROGRAMS.lookup name <;> simp_all
    simp [start_program, hn, hrun]
  · intro hk hrun
    have hn : (PROGRAMS.lookup name).isNone = false := by
      cases hc : PROGRAMS.lookup name <;> simp_all
    refine ⟨by simp [start_program, hn, hrun], ?_⟩
    simp [start_program, hn, hrun, procGet_procSet]
  · intro hk hrun halive
    have hn : (PROGRAMS.lookup name).isNone = false := by
      cases hc : PROGRAMS.lookup name <;> simp_all
    have h1 : start_program alive (some pid) procs name =
        ⟨procSet procs name (some pid), true, true, false⟩ := by
      simp [start_program, hn, hrun]
    have hrun2 : is_program_running alive (procSet procs name (some pid)) name = true := by
      simp [is_program_running, procGet_procSet, halive]
    rw [h1]
    simp [start_program, hn, hrun2]

/-- Witness for C1: starting `"imu"` twice from the initial table with a
successful first spawn returns true both times and spawns exactly once. -/
theorem start_program_contract_witness :
    (start_program (fun _ => true) (some 5) PROGRAM_PROCS_init "imu").ret = true ∧
    (start_program (fun _ => true) (some 5) PROGRAM_PROCS_init "imu").spawned = true ∧
    (start_program (fun _ => true) (some 6)
        (start_program (fun _ => true) (some 5) PROGRAM_PROCS_init "imu").procs "imu").ret
      = true ∧
    (start_program (fun _ => true) (some 6)
        (start_program (fun _ => true) (some 5) PROGRAM_PROCS_init "imu").procs "imu").spawned
      = false ∧
    (start_program (fun _ => true) (some 6)
        (start_program (fun _ => true) (some 5) PROGRAM_PROCS_init "imu").procs "imu").procs
      = (start_program (fun _ => true) (some 5) PROGRAM_PROCS_init "imu").procs :=
  (start_program_contract (fun _ => true) (some 6) PROGRAM_PROCS_init "imu" 5).2.2.2.2
    (by decide) (by decide) rfl

/-- C2: `stop_program` on a process that is not running is a no-op that
leaves the table untouched; the resulting table never depends on whether the
termination signal succeeded (the exception is swallowed); and after every
call the process is in the Stopped state. -/
theorem stop_program_contract (alive : Nat → Bool) (killOk : Bool)
    (procs : ProcMap) (name : String) :
    (is_program_running alive procs name = false →
      stop_program alive killOk procs name = procs) ∧
    stop_program alive true procs name = stop_program alive false procs name ∧
    is_program_running alive (stop_program alive killOk procs name) name = false := by
  refine ⟨?_, rfl, ?_⟩
  · intro h
    simp [stop_program, h]
  · cases hb : is_program_running alive procs name with
    | false => simp [stop_program, hb]
    | true =>
      rw [stop_program, if_pos hb]
      simp [is_program_running, procGet_procSet]

/-- Witness for C2: stopping the never-started name `"ghost"` on the empty
table returns with the table unchanged and the state Stopped. -/
theorem stop_program_contract_witness :
    stop_program (fun _ => false) true [] "ghost" = [] ∧
    is_program_running (fun _ => false)
      (stop_program (fun _ => false) true [] "ghost") "ghost" = false :=
  ⟨(stop_program_contract (fun _ => false) true [] "ghost").1 rfl,
   (stop_program_contract (fun _ => false) true [] "ghost").2.2⟩

/-- C7 evaluated at the failing input: in testweb.py, `start("motortest")`
from the initial table spawns and returns true without ever truncating the
event log, although the Webserver.py variant of `start_motor_test` does
truncate it before spawning (and its `start_imu` does not) and testweb.py's
own interface message announces the truncation. -/
theorem motortest_truncation_divergence :
    (start_program (fun _ => true) (some 7) PROGRAM_PROCS_init "motortest").ret = true ∧
    (start_program (fun _ => true) (some 7) PROGRAM_PROCS_init "motortest").spawned = true ∧
    (start_program (fun _ => true) (some 7) PROGRAM_PROCS_init "motortest").clearedLog = false ∧
    (ws_start_motor_test (fun _ => true) 7 none).clearedLog = true ∧
    (ws_start_imu (fun _ => true) 7 none).clearedLog = false :=
  ⟨rfl, rfl, rfl, rfl, rfl⟩

/-- C6 (amended): the handler logs the command and updates the timestamp iff
`now - lastSent` has reached the 0.25 s interval and otherwise leaves the
throttle state untouched; three calls at times `t`, `t + 0.1` and `t + 0.26`
from the initial state yield logged, not logged, logged for every `t` at
least one interval after the initial timestamp 0 (literal `t = 0` instead
gives not-logged first, see the counterexample). -/
theorem throttle_contract_amended (lastSent now t : ℚ) (xo yo : Option ℚ) :
    ((direction_ajax lastSent now xo yo).logged = true ↔
      now - lastSent ≥ joystick_throttle_interval) ∧
    ((direction_ajax lastSent now xo yo).logged = true →
      (direction_ajax lastSent now xo yo).lastSent = now) ∧
    ((direction_ajax lastSent now xo yo).logged = false →
      (direction_ajax lastSent now xo yo).lastSent = lastSent) ∧
    (joystick_throttle_interval ≤ t →
      (direction_ajax last_joystick_send_init t xo yo).logged = true ∧
      (direction_ajax (direction_ajax last_joystick_send_init t xo yo).lastSent
          (t + 1 / 10) xo yo).logged = false ∧
      (direction_ajax
          (direction_ajax (direction_ajax last_joystick_send_init t xo yo).lastSent
            (t + 1 / 10) xo yo).lastSent
          (t + 26 / 100) xo yo).logged = true) := by
  have hmain : ∀ l n : ℚ,
      ((direction_ajax l n xo yo).logged = true ↔ n - l ≥ joystick_throttle_interval) ∧
      ((direction_ajax l n xo yo).logged = true → (direction_ajax l n xo yo).lastSent = n) ∧
      ((direction_ajax l n xo yo).logged = false → (direction_ajax l n xo yo).lastSent = l) := by
    intro l n
    by_cases h : n - l ≥ joystick_throttle_interval <;>
      simp [direction_ajax, h]
  refine ⟨(hmain lastSent now).1, (hmain lastSent now).2.1, (hmain lastSent now).2.2, ?_⟩
  intro ht
  have hI : joystick_throttle_interval = 1 / 4 := rfl
  have h1 : t - last_joystick_send_init ≥ joystick_throttle_interval := by
    simpa [last_joystick_send_init] using ht
  have e1 : direction_ajax last_joystick_send_init t xo yo = ⟨joyMessage xo yo, t, true⟩ := by
    rw [direction_ajax, if_pos h1]
  have h2 : ¬ (t + 1 / 10 - t ≥ joystick_throttle_interval) := by
    rw [add_sub_cancel_left, hI]
    norm_num
  have e2 : direction_ajax t (t + 1 / 10) xo yo = ⟨joyMessage xo yo, t, false⟩ := by
    rw [direction_ajax, if_neg h2]
  have h3 : t + 26 / 100 - t ≥ joystick_throttle_interval := by
    rw [add_sub_cancel_left, hI]
    norm_num
  have e3 : direction_ajax t (t + 26 / 100) xo yo = ⟨joyMessage xo yo, t + 26 / 100, true⟩ := by
    rw [direction_ajax, if_pos h3]
  rw [e1]
  refine ⟨rfl, ?_, ?_⟩
  · show (direction_ajax t (t + 1 / 10) xo yo).logged = false
    rw [e2]
  · show (direction_ajax (direction_ajax t (t + 1 / 10) xo yo).lastSent
        (t + 26 / 100) xo yo).logged = true
    rw [e2]
    show (direction_ajax t (t + 26 / 100) xo yo).logged = true
    rw [e3]

/-- Witness for C6: the three-call scenario at times 1, 1.1 and 1.26. -/
theorem throttle_contract_amended_witness :
    (direction_ajax last_joystick_send_init 1 none none).logged = true ∧
    (direction_ajax (direction_ajax last_joystick_send_init 1 none none).lastSent
        (1 + 1 / 10) none none).logged = false ∧
    (direction_ajax
        (direction_ajax (direction_ajax last_joystick_send_init 1 none none).lastSent
          (1 + 1 / 10) none none).lastSent
        (1 + 26 / 100) none none).logged = true :=
  (throttle_contract_amended 0 0 1 none none).2.2.2
    (by norm_num [joystick_throttle_interval])

/-- Counterexample for C6 as stated: starting from the code's initial state
`last_joystick_send = 0`, the call at t = 0.0 s is rejected (not logged),
because `0.0 - 0 < 0.25` — the claimed accepted/rejected/accepted pattern
fails at its first call. -/
theorem throttle_counterexample :
    (direction_ajax last_joystick_send_init 0 none none).logged = false := by
  norm_num [direction_ajax, last_joystick_send_init, joystick_throttle_interval]

/-- C8: the acknowledgment message depends only on the request coordinates —
two runs with equal bodies but arbitrary throttle states and clock values
return the same string, always the formatted
`"Joystick x=..., y=..."` value; the throttle decides only the `logged`
side effect. -/
theorem ajax_message_noninterference (last1 now1 last2 now2 : ℚ) (xo yo : Option ℚ) :
    (direction_ajax last1 now1 xo yo).message = (direction_ajax last2 now2 xo yo).message ∧
    (direction_ajax last1 now1 xo yo).message =
      "Joystick x=" ++ fmtF2 (xo.getD 0) ++ ", y=" ++ fmtF2 (yo.getD 0) := by
  have hm : ∀ l n : ℚ, (direction_ajax l n xo yo).message = joyMessage xo yo := by
    intro l n
    by_cases h : n - l ≥ joystick_throttle_interval <;> simp [direction_ajax, h]
  exact ⟨by rw [hm, hm], hm last1 now1⟩

/-- C10: a request body with both coordinates absent behaves exactly like
one with explicit zero coordinates — same message, same throttle update,
same logging decision — and its message is `"Joystick x=0.00, y=0.00"`. -/
theorem ajax_default_coords (lastSent now : ℚ) :
    direction_ajax lastSent now none none = direction_ajax lastSent now (some 0) (some 0) ∧
    (direction_ajax lastSent now none none).message = "Joystick x=0.00, y=0.00" := by
  refine ⟨rfl, ?_⟩
  have hz : joyMessage none none = "Joystick x=0.00, y=0.00" := by decide
  by_cases h : now - lastSent ≥ joystick_throttle_interval <;>
    simp [direction_ajax, h, hz]
